import Mathlib

/-!
Shallow embedding of the browser-kernel state reducer
(`src/js/Flux/BrowserReducer.js`) and verification of the stated
properties of its transitions.

Modelling decisions:
* Immutable `Record` types become Lean structures; the `Record` defaults
  are the fields of `initialBrowserState`.
* The Immutable `Map` of tasks becomes an association list
  `List (String × BrowserTask)`; `get`/`has`/`set`/`remove`/`filter` are
  `tasksGet`/`tasksHas`/`tasksSet`/`tasksRemove`/`List.filter`.
* The Immutable `List` of history items becomes `List HistoryItem`;
  `unshift` is `List.cons`, `filter` is `List.filter`.
* Opaque structured documents (manifests, initial props) are never
  inspected by the reducer and are carried as `Option String`.
* Nullable strings are `Option String`.  JavaScript truthiness of a
  nullable string (`if (foregroundTaskUrl)`) is `some u` with `u ≠ ""`.
* `console.error` diagnostics are side effects outside the state and are
  dropped.
-/

/-- Field set of the `LoadingError` Immutable record. -/
structure LoadingError where
  code : Int
  message : Option String
  originalUrl : Option String
  manifest : Option String
deriving DecidableEq, Repr

/-- Field set of the `HistoryItem` Immutable record. -/
structure HistoryItem where
  url : Option String
  bundleUrl : Option String
  manifestUrl : Option String
  manifest : Option String
  time : Option Int
deriving DecidableEq, Repr

/-- Field set of the `BrowserTask` Immutable record. -/
structure BrowserTask where
  bundleUrl : Option String
  manifestUrl : Option String
  manifest : Option String
  isLoading : Bool
  loadingError : Option LoadingError
  initialProps : Option String
deriving DecidableEq, Repr

/-- Field set of the `BrowserState` Immutable record (the root snapshot). -/
structure BrowserState where
  isShell : Bool
  shellManifestUrl : Option String
  shellInitialUrl : Option String
  isHomeVisible : Bool
  isKernelLoading : Bool
  foregroundTaskUrl : Option String
  tasks : List (String × BrowserTask)
  history : List HistoryItem
deriving DecidableEq, Repr

/-- The record defaults: `new BrowserState()`. -/
def initialBrowserState : BrowserState :=
  { isShell := false
    shellManifestUrl := none
    shellInitialUrl := none
    isHomeVisible := true
    isKernelLoading := false
    foregroundTaskUrl := none
    tasks := []
    history := [] }

/-- Association-list reading of `tasks.get(url, null)`: the binding of the
first matching key, if any. -/
def tasksGet : List (String × BrowserTask) → String → Option BrowserTask
  | [], _ => none
  | p :: rest, u => if p.1 == u then some p.2 else tasksGet rest u

/-- Association-list reading of `tasks.has(url)`. -/
def tasksHas (m : List (String × BrowserTask)) (u : String) : Bool :=
  (tasksGet m u).isSome

/-- Association-list reading of `tasks.set(url, task)`: replace the binding
of an existing key, otherwise add a new binding. -/
def tasksSet (m : List (String × BrowserTask)) (u : String) (v : BrowserTask) :
    List (String × BrowserTask) :=
  match m with
  | [] => [(u, v)]
  | p :: rest => if p.1 == u then (u, v) :: rest else p :: tasksSet rest u v

/-- Association-list reading of `tasks.remove(url)`. -/
def tasksRemove (m : List (String × BrowserTask)) (u : String) :
    List (String × BrowserTask) :=
  m.filter (fun p => !(p.1 == u))

/-- Payload of the `navigateToUrlAsync` begin phase (`action.meta`). -/
structure NavigateMeta where
  url : String
  bundleUrl : Option String
  manifestUrl : Option String
  manifest : Option String
  initialProps : Option String
  historyItem : HistoryItem
deriving DecidableEq, Repr

/-- Payload of `showLoadingError` (`{originalUrl, code, message, manifest}`). -/
structure ShowLoadingErrorPayload where
  code : Int
  message : Option String
  originalUrl : String
  manifest : Option String
deriving DecidableEq, Repr

/-- The `new LoadingError(action.payload)` record construction. -/
def payloadToLoadingError (p : ShowLoadingErrorPayload) : LoadingError :=
  { code := p.code
    message := p.message
    originalUrl := some p.originalUrl
    manifest := p.manifest }

/-- The action surface of the reducer.  Each asynchronous action carries one
constructor per phase that the reducer handles. -/
inductive BrowserAction where
  | navigateBegin (meta : NavigateMeta)
  | navigateThen (payload : List HistoryItem)
  | navigateCatch
  | foregroundUrlAsync (url : Option String)
  | foregroundHomeAsync
  | setKernelLoadingState (isLoading : Bool)
  | setLoadingState (url : String) (isLoading : Bool)
  | setShellPropertiesAsync (isShell : Bool) (shellManifestUrl : Option String)
  | setInitialShellUrl (url : Option String)
  | loadHistoryThen (history : List HistoryItem)
  | clearHistoryThen
  | showLoadingError (payload : ShowLoadingErrorPayload)
  | clearTaskWithError (url : String)
  | logUncaughtError (url : String)
deriving DecidableEq, Repr

/-- Source function `createImmutableHistory(history)`: rebuild the list from
the raw payload items, preserving order (no deduplication). -/
def createImmutableHistory (history : List HistoryItem) : List HistoryItem :=
  history.map (fun item => item)

/-- Source function `createImmutableTask(meta)`: the `{url, task}` pair built
from the begin-phase meta (`isLoading: false`, `loadingError: null`). -/
def createImmutableTask (meta : NavigateMeta) : String × BrowserTask :=
  (meta.url,
    { bundleUrl := meta.bundleUrl
      manifestUrl := meta.manifestUrl
      manifest := meta.manifest
      isLoading := false
      loadingError := none
      initialProps := meta.initialProps })

/-- Source function `validateBrowserState(state)`: when `foregroundTaskUrl`
is truthy, keep only tasks whose key is the foreground url or, in shell
mode, the shell manifest url. -/
def validateBrowserState (state : BrowserState) : BrowserState :=
  match state.foregroundTaskUrl with
  | some fg =>
    if fg = "" then state
    else
      { state with
          tasks := state.tasks.filter (fun p =>
            p.1 == fg || (state.isShell && state.shellManifestUrl == some p.1)) }
  | none => state

/-- The reducer: one case per action type and phase, translated clause by
clause from `BrowserReducer.js`. -/
def browserReduce (state : BrowserState) (action : BrowserAction) : BrowserState :=
  match action with
  | .navigateBegin meta =>
    let ut := createImmutableTask meta
    let historyItem := meta.historyItem
    let history :=
      historyItem :: state.history.filter (fun item => !(item.url == historyItem.url))
    validateBrowserState
      { state with
          isHomeVisible := false
          foregroundTaskUrl := some ut.1
          tasks := tasksSet state.tasks ut.1 ut.2
          history := history }
  | .navigateThen payload =>
    { state with history := createImmutableHistory payload }
  | .navigateCatch =>
    { state with isKernelLoading := false }
  | .foregroundUrlAsync url =>
    match url with
    | none => { state with isHomeVisible := false, foregroundTaskUrl := none }
    | some u =>
      if tasksHas state.tasks u then
        { state with isHomeVisible := false, foregroundTaskUrl := some u }
      else state
  | .foregroundHomeAsync =>
    if state.isShell then state
    else { state with isHomeVisible := true }
  | .setKernelLoadingState isLoading =>
    { state with isKernelLoading := isLoading }
  | .setLoadingState url isLoading =>
    match tasksGet state.tasks url with
    | some task =>
      let updatedTasks := tasksSet state.tasks url
        { task with
            isLoading := isLoading
            loadingError := if isLoading then none else task.loadingError }
      let isAnythingLoading := updatedTasks.any (fun p => p.2.isLoading)
      { state with isKernelLoading := isAnythingLoading, tasks := updatedTasks }
    | none => state
  | .setShellPropertiesAsync isShell shellManifestUrl =>
    { state with
        isShell := isShell
        isHomeVisible := false
        shellManifestUrl := shellManifestUrl }
  | .setInitialShellUrl url =>
    { state with shellInitialUrl := url }
  | .loadHistoryThen history =>
    { state with history := createImmutableHistory history }
  | .clearHistoryThen =>
    { state with history := [] }
  | .showLoadingError payload =>
    let task : BrowserTask :=
      match tasksGet state.tasks payload.originalUrl with
      | some t =>
        { t with
            isLoading := false
            initialProps := none
            loadingError := some (payloadToLoadingError payload) }
      | none =>
        { bundleUrl := none
          manifestUrl := none
          manifest := none
          isLoading := false
          loadingError := some (payloadToLoadingError payload)
          initialProps := none }
    let updatedTasks := tasksSet state.tasks payload.originalUrl task
    let isAnythingLoading := updatedTasks.any (fun p => p.2.isLoading)
    validateBrowserState
      { state with
          isHomeVisible := false
          foregroundTaskUrl := some payload.originalUrl
          isKernelLoading := isAnythingLoading
          tasks := updatedTasks }
  | .clearTaskWithError url =>
    match tasksGet state.tasks url with
    | some _ =>
      { state with
          isHomeVisible := true
          foregroundTaskUrl := none
          tasks := tasksRemove state.tasks url }
    | none => state
  | .logUncaughtError url =>
    match tasksGet state.tasks url with
    | some task =>
      { state with tasks := tasksSet state.tasks url { task with isLoading := false } }
    | none => state

/-- Reachability: the states produced from the default-constructed record by
any finite sequence of dispatched actions. -/
inductive Reachable : BrowserState → Prop where
  | init : Reachable initialBrowserState
  | step {s : BrowserState} (a : BrowserAction) : Reachable s → Reachable (browserReduce s a)

/-! ## Basic association-list lemmas -/

theorem tasksGet_tasksSet_self (m : List (String × BrowserTask)) (u : String)
    (v : BrowserTask) : tasksGet (tasksSet m u v) u = some v := by
  induction m with
  | nil => simp [tasksSet, tasksGet]
  | cons p rest ih =>
    cases hc : (p.1 == u) with
    | true => simp [tasksSet, hc, tasksGet]
    | false => simp [tasksSet, hc, tasksGet, ih]

theorem tasksGet_tasksRemove_self (m : List (String × BrowserTask)) (u : String) :
    tasksGet (tasksRemove m u) u = none := by
  induction m with
  | nil => rfl
  | cons p rest ih =>
    cases hc : (p.1 == u) with
    | true => simpa [tasksRemove, List.filter_cons, hc, tasksGet] using ih
    | false => simpa [tasksRemove, List.filter_cons, hc, tasksGet] using ih

theorem tasksGet_eq_none_of_tasksHas_eq_false (m : List (String × BrowserTask))
    (u : String) (h : tasksHas m u = false) : tasksGet m u = none := by
  unfold tasksHas at h
  cases hg : tasksGet m u with
  | none => rfl
  | some t => rw [hg] at h; simp at h

theorem tasksGet_filter_of_pred (m : List (String × BrowserTask)) (fg : String)
    (q : String × BrowserTask → Bool) (hq : ∀ p, p.1 = fg → q p = true) :
    tasksGet (m.filter q) fg = tasksGet m fg := by
  induction m with
  | nil => rfl
  | cons p rest ih =>
    cases hc : (p.1 == fg) with
    | true =>
      have hp : p.1 = fg := by simpa using hc
      rw [List.filter_cons, hq p hp]
      simp [tasksGet, hc]
    | false =>
      rw [List.filter_cons]
      cases hqp : q p with
      | true => simp [tasksGet, hc, ih]
      | false => simp [tasksGet, hc, ih]

/-! ## Lemmas about the normalization pass -/

theorem validateBrowserState_preserves_fields (s : BrowserState) :
    (validateBrowserState s).isShell = s.isShell ∧
    (validateBrowserState s).shellManifestUrl = s.shellManifestUrl ∧
    (validateBrowserState s).shellInitialUrl = s.shellInitialUrl ∧
    (validateBrowserState s).isHomeVisible = s.isHomeVisible ∧
    (validateBrowserState s).isKernelLoading = s.isKernelLoading ∧
    (validateBrowserState s).foregroundTaskUrl = s.foregroundTaskUrl ∧
    (validateBrowserState s).history = s.history := by
  unfold validateBrowserState
  split
  next fg heq =>
    split
    next => exact ⟨rfl, rfl, rfl, rfl, rfl, rfl, rfl⟩
    next => exact ⟨rfl, rfl, rfl, rfl, rfl, rfl, rfl⟩
  next => exact ⟨rfl, rfl, rfl, rfl, rfl, rfl, rfl⟩

theorem validateBrowserState_tasksGet_fg (s : BrowserState) (fg : String)
    (h : s.foregroundTaskUrl = some fg) :
    tasksGet (validateBrowserState s).tasks fg = tasksGet s.tasks fg := by
  simp only [validateBrowserState, h]
  by_cases he : fg = ""
  · rw [if_pos he]
  · rw [if_neg he]
    exact tasksGet_filter_of_pred _ _ _ (fun p hp => by simp [hp])

/-! ## Stated invariants -/

/-- Invariant 3 of the data model: the cached `isKernelLoading` flag agrees
with "at least one task is loading". -/
abbrev kernelLoadingConsistent (s : BrowserState) : Prop :=
  s.isKernelLoading = s.tasks.any (fun p => p.2.isLoading)

/-- Invariant 4 of the data model: in shell mode with a foreground task set,
every tracked task key is the foreground url or the shell manifest url. -/
abbrev shellTasksRestricted (s : BrowserState) : Prop :=
  s.isShell = true → s.foregroundTaskUrl ≠ none →
    ∀ p ∈ s.tasks, some p.1 = s.foregroundTaskUrl ∨ s.shellManifestUrl = some p.1

/-- Invariant 2 of the data model: no two history items share a url. -/
abbrev historyDeduplicated (s : BrowserState) : Prop :=
  (s.history.map (fun i => i.url)).Nodup

theorem reachable_foldl (acts : List BrowserAction) {s : BrowserState}
    (h : Reachable s) : Reachable (List.foldl browserReduce s acts) := by
  induction acts generalizing s with
  | nil => exact h
  | cons a rest ih => exact ih (Reachable.step a h)

/-! ## Concrete fixtures used to exercise the transitions -/

def urlA : String := "https://a"

def urlB : String := "https://b"

def urlM : String := "https://m"

/-- A navigation meta whose history item records the same url. -/
def navMeta (u : String) : NavigateMeta :=
  { url := u
    bundleUrl := none
    manifestUrl := none
    manifest := none
    initialProps := none
    historyItem :=
      { url := some u, bundleUrl := none, manifestUrl := none
        manifest := none, time := none } }

/-- The state after one begin-navigation to `urlA` from the initial state. -/
def oneTaskState : BrowserState :=
  browserReduce initialBrowserState (.navigateBegin (navMeta urlA))

/-- A 404 `showLoadingError` payload for the given url. -/
def errorPayload (u : String) : ShowLoadingErrorPayload :=
  { code := 404, message := none, originalUrl := u, manifest := none }

/-! ## Claim C1 -/

/-- Claim C1 as stated is false: `setKernelLoadingState` writes the flag
directly from the payload without consulting `tasks`, so dispatching it with
`isLoading = true` on the (empty-task) initial state produces a reachable
state whose `isKernelLoading` is true while no task is loading. -/
theorem kernel_flag_biconditional_not_preserved :
    ¬ (∀ s, Reachable s → ∀ a, kernelLoadingConsistent (browserReduce s a)) := by
  intro h
  have h1 := h initialBrowserState Reachable.init (.setKernelLoadingState true)
  exact absurd h1 (by decide)

/-- Claim C1 (amended): the biconditional between `isKernelLoading` and "some
task is loading" is re-established by `setLoadingState` whenever its url is
tracked, because that transition recomputes the flag over the updated task
map it installs. -/
theorem setLoadingState_restores_kernel_flag (s : BrowserState) (url : String)
    (b : Bool) (h : tasksHas s.tasks url = true) :
    kernelLoadingConsistent (browserReduce s (.setLoadingState url b)) := by
  unfold tasksHas at h
  cases hg : tasksGet s.tasks url with
  | none => rw [hg] at h; simp at h
  | some t => simp only [kernelLoadingConsistent, browserReduce, hg]

theorem setLoadingState_restores_kernel_flag_witness :
    tasksHas oneTaskState.tasks urlA = true ∧
      kernelLoadingConsistent (browserReduce oneTaskState (.setLoadingState urlA true)) :=
  ⟨by decide, setLoadingState_restores_kernel_flag oneTaskState urlA true (by decide)⟩

/-! ## Claim C2 -/

/-- The renavigation scenario of the claim: begin-navigate to `urlA`, then to
`urlB`, then to `urlA` again, starting from the initial (non-shell) state. -/
def renavigateScenario : BrowserState :=
  List.foldl browserReduce initialBrowserState
    [.navigateBegin (navMeta urlA), .navigateBegin (navMeta urlB),
     .navigateBegin (navMeta urlA)]

/-- Claim C2 as stated is false: the normalization pass runs whenever the
foreground url is truthy, in shell mode or not, so in the stated scenario the
task for `urlB` is evicted as soon as `urlA` returns to the foreground; the
final task map does not contain both urls even though `isShell` is false. -/
theorem renavigate_scenario_counterexample :
    renavigateScenario.isShell = false ∧
    tasksHas renavigateScenario.tasks urlB = false := by decide

/-- Claim C2 (amended): whenever `foregroundTaskUrl` is a truthy (non-null,
non-empty) url, the normalization pass filters the task set down to the
foreground task, plus the shell manifest task only in shell mode — it is not
restricted to `isShell = true`.  Consequently the stated scenario yields
`history` = [a, b] (a single copy of a, moved to the front) and
`foregroundTaskUrl` = a, but its task map retains only `urlA`; the `urlB`
task has been filtered out despite `isShell = false`. -/
theorem validate_filters_whenever_foreground_truthy (s : BrowserState) (fg : String)
    (h1 : s.foregroundTaskUrl = some fg) (h2 : ¬ fg = "") :
    (∀ p ∈ (validateBrowserState s).tasks,
        p.1 = fg ∨ (s.isShell = true ∧ s.shellManifestUrl = some p.1)) ∧
    renavigateScenario.history.map (fun i => i.url) = [some urlA, some urlB] ∧
    renavigateScenario.foregroundTaskUrl = some urlA ∧
    tasksHas renavigateScenario.tasks urlA = true ∧
    tasksHas renavigateScenario.tasks urlB = false := by
  refine ⟨?_, by decide, by decide, by decide, by decide⟩
  intro p hp
  simp only [validateBrowserState, h1, h2, if_false] at hp
  have hmem := List.mem_filter.mp hp
  have hpred := hmem.2
  simp only [Bool.or_eq_true, Bool.and_eq_true, beq_iff_eq] at hpred
  rcases hpred with hl | ⟨hsh, hm⟩
  · exact Or.inl hl
  · exact Or.inr ⟨hsh, hm⟩

theorem validate_filters_whenever_foreground_truthy_witness :
    renavigateScenario.history.map (fun i => i.url) = [some urlA, some urlB] ∧
    renavigateScenario.foregroundTaskUrl = some urlA ∧
    tasksHas renavigateScenario.tasks urlA = true ∧
    tasksHas renavigateScenario.tasks urlB = false :=
  (validate_filters_whenever_foreground_truthy renavigateScenario urlA
    (by decide) (by decide)).2

/-! ## Claim C3 -/

/-- Enter shell mode with manifest `urlM`, navigate to `urlM`, navigate to
`urlA` (now both tasks are legitimately tracked), then re-foreground `urlM`
through `foregroundUrlAsync`, which does not run the normalization pass. -/
def shellEscapeScenario : BrowserState :=
  List.foldl browserReduce initialBrowserState
    [.setShellPropertiesAsync true (some urlM), .navigateBegin (navMeta urlM),
     .navigateBegin (navMeta urlA), .foregroundUrlAsync (some urlM)]

/-- Claim C3 as stated is false: `foregroundUrlAsync` changes the foreground
url without re-running `validateBrowserState`, so a reachable shell-mode
state can keep a task (`urlA`) that is neither the foreground url nor the
shell manifest url. -/
theorem shell_restriction_not_invariant :
    ¬ (∀ s, Reachable s → shellTasksRestricted s) := by
  intro h
  have hr : Reachable shellEscapeScenario := reachable_foldl _ Reachable.init
  exact absurd (h _ hr) (by decide)

/-- Claim C3 (amended): the restriction does hold immediately after the two
transitions that run the normalization pass.  In shell mode, after the begin
phase of `navigateToUrlAsync` with a non-empty target url, and after
`showLoadingError` with a non-empty original url, every tracked task key is
the (new) foreground url or the shell manifest url.  It is not an invariant
of all reachable states, because `foregroundUrlAsync` can change the
foreground afterwards without filtering. -/
theorem validated_transitions_enforce_shell_restriction (s : BrowserState)
    (meta : NavigateMeta) (pl : ShowLoadingErrorPayload) (hs : s.isShell = true)
    (hm : ¬ meta.url = "") (hp : ¬ pl.originalUrl = "") :
    (∀ q ∈ (browserReduce s (.navigateBegin meta)).tasks,
        q.1 = meta.url ∨ s.shellManifestUrl = some q.1) ∧
    (∀ q ∈ (browserReduce s (.showLoadingError pl)).tasks,
        q.1 = pl.originalUrl ∨ s.shellManifestUrl = some q.1) := by
  constructor
  · intro q hq
    simp only [browserReduce, createImmutableTask, validateBrowserState, hm,
      if_false] at hq
    have hpred := (List.mem_filter.mp hq).2
    simp only [Bool.or_eq_true, Bool.and_eq_true, beq_iff_eq, hs] at hpred
    rcases hpred with hl | ⟨_, hr⟩
    · exact Or.inl hl
    · exact Or.inr hr
  · intro q hq
    simp only [browserReduce, validateBrowserState, hp, if_false] at hq
    have hpred := (List.mem_filter.mp hq).2
    simp only [Bool.or_eq_true, Bool.and_eq_true, beq_iff_eq, hs] at hpred
    rcases hpred with hl | ⟨_, hr⟩
    · exact Or.inl hl
    · exact Or.inr hr

/-- The shell-mode base state: shell properties set to `urlM`, then one
begin-navigation to `urlM`. -/
def shellBaseState : BrowserState :=
  List.foldl browserReduce initialBrowserState
    [.setShellPropertiesAsync true (some urlM), .navigateBegin (navMeta urlM)]

theorem validated_transitions_enforce_shell_restriction_witness :
    urlM = urlA ∨ shellBaseState.shellManifestUrl = some urlM :=
  (validated_transitions_enforce_shell_restriction shellBaseState (navMeta urlA)
      (errorPayload urlB) (by decide) (by decide) (by decide)).1
    (urlM, (createImmutableTask (navMeta urlM)).2) (by decide)

/-! ## Claim C4 -/

/-- A history item for `urlA`, used twice in one `then` payload. -/
def duplicateItem : HistoryItem :=
  { url := some urlA, bundleUrl := none, manifestUrl := none
    manifest := none, time := none }

/-- Claim C4 as stated is false: the `then` phases install the resolved
payload verbatim (`createImmutableHistory` maps over it without removing
duplicates), so a `loadHistoryAsync` resolution whose list repeats a url
yields a reachable state with two history items sharing that url. -/
theorem history_dedup_not_invariant :
    ¬ (∀ s, Reachable s → historyDeduplicated s) := by
  intro h
  have hr : Reachable (browserReduce initialBrowserState
      (.loadHistoryThen [duplicateItem, duplicateItem])) :=
    Reachable.step _ Reachable.init
  exact absurd (h _ hr) (by decide)

/-- Url-distinctness of the history list a `then`-phase action installs; all
other actions are unconstrained. -/
def actionHistoryWellFormed : BrowserAction → Prop
  | .navigateThen payload =>
      ((createImmutableHistory payload).map (fun i => i.url)).Nodup
  | .loadHistoryThen history =>
      ((createImmutableHistory history).map (fun i => i.url)).Nodup
  | _ => True

/-- Reachability restricted to actions whose `then`-phase payload lists are
themselves free of duplicate urls. -/
inductive ReachableWF : BrowserState → Prop where
  | init : ReachableWF initialBrowserState
  | step {s : BrowserState} (a : BrowserAction) :
      actionHistoryWellFormed a → ReachableWF s → ReachableWF (browserReduce s a)

theorem browserReduce_preserves_historyDeduplicated (s : BrowserState)
    (a : BrowserAction) (hwf : actionHistoryWellFormed a)
    (h : historyDeduplicated s) : historyDeduplicated (browserReduce s a) := by
  cases a with
  | navigateBegin meta =>
    unfold historyDeduplicated
    simp only [browserReduce]
    rw [(validateBrowserState_preserves_fields _).2.2.2.2.2.2]
    simp only [List.map_cons, List.nodup_cons]
    constructor
    · intro hmem
      rcases List.mem_map.mp hmem with ⟨it, hit, hurl⟩
      have hne := (List.mem_filter.mp hit).2
      simp only [Bool.not_eq_true', beq_eq_false_iff_ne] at hne
      exact hne hurl
    · exact List.Nodup.sublist ((List.filter_sublist _).map _) h
  | navigateThen payload => exact hwf
  | navigateCatch => exact h
  | foregroundUrlAsync url =>
    cases url with
    | none => exact h
    | some u =>
      simp only [browserReduce]
      split <;> exact h
  | foregroundHomeAsync =>
    simp only [browserReduce]
    split <;> exact h
  | setKernelLoadingState b => exact h
  | setLoadingState u b =>
    simp only [browserReduce]
    split <;> exact h
  | setShellPropertiesAsync b m => exact h
  | setInitialShellUrl u => exact h
  | loadHistoryThen hist => exact hwf
  | clearHistoryThen => exact List.nodup_nil
  | showLoadingError pl =>
    unfold historyDeduplicated
    simp only [browserReduce]
    rw [(validateBrowserState_preserves_fields _).2.2.2.2.2.2]
    exact h
  | clearTaskWithError u =>
    simp only [browserReduce]
    split <;> exact h
  | logUncaughtError u =>
    simp only [browserReduce]
    split <;> exact h

/-- Claim C4 (amended): url-distinctness of `history` is an invariant of all
states reachable by actions whose `then`-phase payload lists are free of
duplicate urls (the `then` phases install their payload verbatim, so an
arbitrary payload list can break it); and the begin-phase prepend removes any
stale item with the same url and places the new item at the front. -/
theorem history_dedup_holds_for_wellformed_payloads (s : BrowserState)
    (hs : ReachableWF s) (meta : NavigateMeta) :
    historyDeduplicated s ∧
    (browserReduce s (.navigateBegin meta)).history =
      meta.historyItem ::
        s.history.filter (fun item => !(item.url == meta.historyItem.url)) := by
  constructor
  · induction hs with
    | init => exact List.nodup_nil
    | step a hwf hr ih => exact browserReduce_preserves_historyDeduplicated _ a hwf ih
  · simp only [browserReduce]
    exact (validateBrowserState_preserves_fields _).2.2.2.2.2.2

theorem history_dedup_holds_for_wellformed_payloads_witness :
    historyDeduplicated initialBrowserState ∧
    (browserReduce initialBrowserState (.navigateBegin (navMeta urlA))).history =
      [(navMeta urlA).historyItem] :=
  history_dedup_holds_for_wellformed_payloads initialBrowserState
    ReachableWF.init (navMeta urlA)

/-! ## Claim C5 -/

/-- Claim C5: `setLoadingState` with an untracked url returns the state
unchanged; with a tracked url it overwrites the task flag with the payload
flag, clears `loadingError` exactly when the flag is true, and sets
`isKernelLoading` to true iff some task in the resulting task map is
loading. -/
theorem setLoadingState_spec (s : BrowserState) (url : String) (b : Bool) :
    (tasksGet s.tasks url = none → browserReduce s (.setLoadingState url b) = s) ∧
    (∀ t, tasksGet s.tasks url = some t →
      tasksGet (browserReduce s (.setLoadingState url b)).tasks url =
        some { t with isLoading := b
                      loadingError := if b then none else t.loadingError } ∧
      ((browserReduce s (.setLoadingState url b)).isKernelLoading = true ↔
        ∃ p ∈ (browserReduce s (.setLoadingState url b)).tasks,
          p.2.isLoading = true)) := by
  constructor
  · intro hg
    simp only [browserReduce, hg]
  · intro t hg
    simp only [browserReduce, hg]
    refine ⟨tasksGet_tasksSet_self _ _ _, ?_⟩
    simp [List.any_eq_true]

theorem setLoadingState_spec_witness :
    browserReduce initialBrowserState (.setLoadingState urlA true) =
      initialBrowserState ∧
    tasksGet (browserReduce oneTaskState (.setLoadingState urlA true)).tasks urlA =
      some { bundleUrl := none, manifestUrl := none, manifest := none
             isLoading := true, loadingError := none, initialProps := none } ∧
    (browserReduce oneTaskState (.setLoadingState urlA true)).isKernelLoading = true :=
  ⟨(setLoadingState_spec initialBrowserState urlA true).1 rfl,
   ((setLoadingState_spec oneTaskState urlA true).2
      (createImmutableTask (navMeta urlA)).2 (by decide)).1,
   by decide⟩

/-! ## Claim C6 -/

/-- Claim C6: `foregroundUrlAsync` with a null url, or with a url present in
`tasks`, sets `foregroundTaskUrl` to that url and hides home; with a non-null
url absent from `tasks` it returns the state unchanged, so a rejected
foreground never changes `foregroundTaskUrl`. -/
theorem foregroundUrlAsync_spec (s : BrowserState) (x : String) :
    (browserReduce s (.foregroundUrlAsync none) =
       { s with isHomeVisible := false, foregroundTaskUrl := none }) ∧
    (tasksHas s.tasks x = true →
       browserReduce s (.foregroundUrlAsync (some x)) =
         { s with isHomeVisible := false, foregroundTaskUrl := some x }) ∧
    (tasksHas s.tasks x = false →
       browserReduce s (.foregroundUrlAsync (some x)) = s) := by
  refine ⟨rfl, ?_, ?_⟩
  · intro h
    simp [browserReduce, h]
  · intro h
    simp [browserReduce, h]

theorem foregroundUrlAsync_spec_witness :
    browserReduce oneTaskState (.foregroundUrlAsync (some urlA)) =
      { oneTaskState with isHomeVisible := false, foregroundTaskUrl := some urlA } ∧
    browserReduce initialBrowserState (.foregroundUrlAsync (some urlA)) =
      initialBrowserState :=
  ⟨(foregroundUrlAsync_spec oneTaskState urlA).2.1 (by decide),
   (foregroundUrlAsync_spec initialBrowserState urlA).2.2 (by decide)⟩

/-! ## Claim C7 -/

/-- The fresh task record `showLoadingError` synthesizes when no task exists
at the original url: it holds only the loading error. -/
def freshErrorTask (pl : ShowLoadingErrorPayload) : BrowserTask :=
  { bundleUrl := none, manifestUrl := none, manifest := none
    isLoading := false, loadingError := some (payloadToLoadingError pl)
    initialProps := none }

/-- A state with one loading task at `urlA` (begin-navigate, then mark it
loading). -/
def preErrorState : BrowserState :=
  List.foldl browserReduce initialBrowserState
    [.navigateBegin (navMeta urlA), .setLoadingState urlA true]

/-- Claim C7 as stated is false on its `isKernelLoading` conjunct:
`showLoadingError` computes the flag over the updated task map before the
normalization pass filters it.  From a state whose only loading task is
`urlA`, showing an error for `urlB` evicts the `urlA` task (non-shell filter
keeps only the new foreground) yet leaves `isKernelLoading` true, so the flag
does not equal "some remaining task is loading". -/
theorem showLoadingError_flag_counterexample :
    (browserReduce preErrorState
        (.showLoadingError (errorPayload urlB))).isKernelLoading = true ∧
    (browserReduce preErrorState
        (.showLoadingError (errorPayload urlB))).tasks.any
        (fun p => p.2.isLoading) = false := by decide

/-- Claim C7 (amended): `showLoadingError` merges the error into an existing
task at the original url (stopping its load and clearing its initial props)
or synthesizes a fresh error-only task, forces that url to the foreground
with home hidden, and sets `isKernelLoading` to whether any task of the
updated task map before the normalization pass is loading (the pass may then
evict loading tasks without re-deriving the flag). -/
theorem showLoadingError_spec (s : BrowserState) (pl : ShowLoadingErrorPayload) :
    (browserReduce s (.showLoadingError pl)).foregroundTaskUrl =
        some pl.originalUrl ∧
    (browserReduce s (.showLoadingError pl)).isHomeVisible = false ∧
    (∀ t, tasksGet s.tasks pl.originalUrl = some t →
      tasksGet (browserReduce s (.showLoadingError pl)).tasks pl.originalUrl =
        some { t with isLoading := false, initialProps := none
                      loadingError := some (payloadToLoadingError pl) } ∧
      (browserReduce s (.showLoadingError pl)).isKernelLoading =
        (tasksSet s.tasks pl.originalUrl
          { t with isLoading := false, initialProps := none
                   loadingError := some (payloadToLoadingError pl) }).any
          (fun p => p.2.isLoading)) ∧
    (tasksGet s.tasks pl.originalUrl = none →
      tasksGet (browserReduce s (.showLoadingError pl)).tasks pl.originalUrl =
        some (freshErrorTask pl) ∧
      (browserReduce s (.showLoadingError pl)).isKernelLoading =
        (tasksSet s.tasks pl.originalUrl (freshErrorTask pl)).any
          (fun p => p.2.isLoading)) := by
  refine ⟨?_, ?_, ?_, ?_⟩
  · simp only [browserReduce]
    rw [(validateBrowserState_preserves_fields _).2.2.2.2.2.1]
  · simp only [browserReduce]
    rw [(validateBrowserState_preserves_fields _).2.2.2.1]
  · intro t hg
    constructor
    · simp only [browserReduce, hg]
      rw [validateBrowserState_tasksGet_fg _ _ rfl]
      exact tasksGet_tasksSet_self _ _ _
    · simp only [browserReduce, hg]
      rw [(validateBrowserState_preserves_fields _).2.2.2.2.1]
  · intro hg
    constructor
    · simp only [browserReduce, hg]
      rw [validateBrowserState_tasksGet_fg _ _ rfl]
      exact tasksGet_tasksSet_self _ _ _
    · simp only [browserReduce, hg]
      rw [(validateBrowserState_preserves_fields _).2.2.2.2.1]
      rfl

theorem showLoadingError_spec_witness :
    (browserReduce initialBrowserState
        (.showLoadingError (errorPayload urlA))).foregroundTaskUrl = some urlA ∧
    (browserReduce initialBrowserState
        (.showLoadingError (errorPayload urlA))).isHomeVisible = false ∧
    tasksGet (browserReduce initialBrowserState
        (.showLoadingError (errorPayload urlA))).tasks urlA =
      some (freshErrorTask (errorPayload urlA)) ∧
    (browserReduce initialBrowserState
        (.showLoadingError (errorPayload urlA))).isKernelLoading = false :=
  ⟨(showLoadingError_spec initialBrowserState (errorPayload urlA)).1,
   (showLoadingError_spec initialBrowserState (errorPayload urlA)).2.1,
   ((showLoadingError_spec initialBrowserState (errorPayload urlA)).2.2.2 rfl).1,
   Eq.trans
     ((showLoadingError_spec initialBrowserState (errorPayload urlA)).2.2.2 rfl).2
     (by decide)⟩

/-! ## Claim C8 -/

/-- Claim C8: the catch phase of `navigateToUrlAsync` forces
`isKernelLoading` to false and leaves every other field of the state
unchanged. -/
theorem navigateCatch_spec (s : BrowserState) :
    browserReduce s .navigateCatch = { s with isKernelLoading := false } := rfl

/-! ## Claim C9 -/

/-- Claim C9: `clearTaskWithError` with a tracked url returns to home,
clears the foreground and evicts the task; with an untracked url it is a
no-op; hence it is idempotent. -/
theorem clearTaskWithError_spec (s : BrowserState) (u : String) :
    (tasksHas s.tasks u = true →
       (browserReduce s (.clearTaskWithError u)).isHomeVisible = true ∧
       (browserReduce s (.clearTaskWithError u)).foregroundTaskUrl = none ∧
       tasksHas (browserReduce s (.clearTaskWithError u)).tasks u = false) ∧
    (tasksHas s.tasks u = false → browserReduce s (.clearTaskWithError u) = s) ∧
    browserReduce (browserReduce s (.clearTaskWithError u)) (.clearTaskWithError u) =
      browserReduce s (.clearTaskWithError u) := by
  have hrem : tasksGet (tasksRemove s.tasks u) u = none :=
    tasksGet_tasksRemove_self _ _
  refine ⟨?_, ?_, ?_⟩
  · intro h
    cases hg : tasksGet s.tasks u with
    | none => unfold tasksHas at h; rw [hg] at h; simp at h
    | some t =>
      refine ⟨?_, ?_, ?_⟩ <;> simp [browserReduce, hg, tasksHas, hrem]
  · intro h
    have hg := tasksGet_eq_none_of_tasksHas_eq_false _ _ h
    simp only [browserReduce, hg]
  · cases hg : tasksGet s.tasks u with
    | none => simp only [browserReduce, hg]
    | some t => simp only [browserReduce, hg, hrem]

theorem clearTaskWithError_spec_witness :
    (browserReduce oneTaskState (.clearTaskWithError urlA)).isHomeVisible = true ∧
    (browserReduce oneTaskState (.clearTaskWithError urlA)).foregroundTaskUrl = none ∧
    tasksHas (browserReduce oneTaskState (.clearTaskWithError urlA)).tasks urlA
        = false ∧
    browserReduce initialBrowserState (.clearTaskWithError urlA) =
      initialBrowserState :=
  ⟨((clearTaskWithError_spec oneTaskState urlA).1 (by decide)).1,
   ((clearTaskWithError_spec oneTaskState urlA).1 (by decide)).2.1,
   ((clearTaskWithError_spec oneTaskState urlA).1 (by decide)).2.2,
   (clearTaskWithError_spec initialBrowserState urlA).2.1 (by decide)⟩

/-! ## Claim C10 -/

/-- Claim C10: in shell mode, `clearTaskWithError` on a tracked url makes the
home surface visible, and it is the only operation that can do so there:
`foregroundHomeAsync` is rejected outright in shell mode (state unchanged),
`setShellPropertiesAsync` hides home, and every action other than
`clearTaskWithError` keeps `isHomeVisible` false in a shell-mode state where
it is false. -/
theorem clearTaskWithError_shows_home_even_in_shell (s : BrowserState)
    (u : String) (hs : s.isShell = true) :
    (tasksHas s.tasks u = true →
       (browserReduce s (.clearTaskWithError u)).isHomeVisible = true) ∧
    browserReduce s .foregroundHomeAsync = s ∧
    (∀ b m, (browserReduce s (.setShellPropertiesAsync b m)).isHomeVisible = false) ∧
    (s.isHomeVisible = false →
       ∀ a : BrowserAction, (∀ v, a ≠ .clearTaskWithError v) →
         (browserReduce s a).isHomeVisible = false) := by
  refine ⟨?_, ?_, ?_, ?_⟩
  · intro h
    cases hg : tasksGet s.tasks u with
    | none => unfold tasksHas at h; rw [hg] at h; simp at h
    | some t => simp only [browserReduce, hg]
  · simp [browserReduce, hs]
  · intro b m
    rfl
  · intro hh a hne
    cases a with
    | navigateBegin meta =>
      simp only [browserReduce]
      rw [(validateBrowserState_preserves_fields _).2.2.2.1]
    | navigateThen p => exact hh
    | navigateCatch => exact hh
    | foregroundUrlAsync url =>
      cases url with
      | none => rfl
      | some x =>
        simp only [browserReduce]
        split
        · rfl
        · exact hh
    | foregroundHomeAsync => simpa [browserReduce, hs] using hh
    | setKernelLoadingState b => exact hh
    | setLoadingState x b =>
      simp only [browserReduce]
      split <;> exact hh
    | setShellPropertiesAsync b m => rfl
    | setInitialShellUrl x => exact hh
    | loadHistoryThen hl => exact hh
    | clearHistoryThen => exact hh
    | showLoadingError pl =>
      simp only [browserReduce]
      rw [(validateBrowserState_preserves_fields _).2.2.2.1]
    | clearTaskWithError v => exact absurd rfl (hne v)
    | logUncaughtError x =>
      simp only [browserReduce]
      split <;> exact hh

theorem clearTaskWithError_shows_home_even_in_shell_witness :
    (browserReduce shellBaseState (.clearTaskWithError urlM)).isHomeVisible = true ∧
    browserReduce shellBaseState .foregroundHomeAsync = shellBaseState ∧
    (browserReduce shellBaseState
        (.setShellPropertiesAsync true (some urlM))).isHomeVisible = false ∧
    (browserReduce shellBaseState (.setKernelLoadingState true)).isHomeVisible
        = false :=
  ⟨(clearTaskWithError_shows_home_even_in_shell shellBaseState urlM
      (by decide)).1 (by decide),
   (clearTaskWithError_shows_home_even_in_shell shellBaseState urlM
      (by decide)).2.1,
   (clearTaskWithError_shows_home_even_in_shell shellBaseState urlM
      (by decide)).2.2.1 true (some urlM),
   (clearTaskWithError_shows_home_even_in_shell shellBaseState urlM
      (by decide)).2.2.2 (by decide) (.setKernelLoadingState true)
      (fun v h => nomatch h)⟩
